import Mathlib

set_option maxRecDepth 20000

/-!
Verification development for the chatbot backend in src/backend/main.py.

The embedding works at the level of Unicode code points (Lean `Char`,
Python `str` items).  Python string helpers used by the backend
(`str.strip`, `str.lower`, `str.title`, slicing, substring tests,
`os.path.basename`, `os.path.splitext`, `urllib.parse` query extraction
and the few regular expressions of `format_as_search_results`) are
reimplemented below on `List Char`.  Case mapping is modelled for the
ASCII range, which covers every string literal the backend compares
against.  The CSV-loaded module-level dictionary `url_mapping` is passed
explicitly as an association list with distinct keys.
-/

/-- Python whitespace for a bare `str.strip()` and for the regex class
of blank characters: space, tab, newline, carriage return, vertical tab
and form feed. -/
def pyIsSpace (c : Char) : Bool :=
  c = ' ' || c = '\t' || c = '\n' || c = '\r' || c = Char.ofNat 11 || c = Char.ofNat 12

/-- Python `str.strip()` with no argument: drop leading and trailing
whitespace. -/
def pyStripChars (l : List Char) : List Char :=
  ((l.dropWhile pyIsSpace).reverse.dropWhile pyIsSpace).reverse

/-- Python `str.strip()` on `String`. -/
def pyStripStr (s : String) : String :=
  String.mk (pyStripChars s.data)

/-- Python `str.lower()` (ASCII range). -/
def toLowerChars (l : List Char) : List Char :=
  l.map Char.toLower

/-- Python `pat in hay` substring test on code-point lists. -/
def hasSubstrChars (hay pat : List Char) : Bool :=
  match hay with
  | [] => pat.isEmpty
  | c :: r => pat.isPrefixOf (c :: r) || hasSubstrChars r pat

/-- Python slice-with-guard `l[:n] if len(l) > n else l`; equal to
plain `l[:n]` but mirrors the guarded form used in the source. -/
def pyCap (n : Nat) (l : List Char) : List Char :=
  if n < l.length then l.take n else l

/-- Hexadecimal digit value, as accepted by `urllib.parse.unquote`. -/
def hexVal (c : Char) : Option Nat :=
  if '0' ≤ c ∧ c ≤ '9' then some (c.toNat - '0'.toNat)
  else if 'a' ≤ c ∧ c ≤ 'f' then some (c.toNat - 'a'.toNat + 10)
  else if 'A' ≤ c ∧ c ≤ 'F' then some (c.toNat - 'A'.toNat + 10)
  else none

/-- `urllib.parse.unquote_plus` modelled for single-byte escapes: plus
signs become spaces, valid percent escapes are decoded, invalid escapes
are kept verbatim. -/
def unquoteChars : List Char → List Char
  | [] => []
  | '+' :: r => ' ' :: unquoteChars r
  | '%' :: h1 :: h2 :: r =>
    match hexVal h1, hexVal h2 with
    | some a, some b => Char.ofNat (16 * a + b) :: unquoteChars r
    | _, _ => '%' :: unquoteChars (h1 :: h2 :: r)
  | c :: r => c :: unquoteChars r

/-- Split on a separator character, keeping empty pieces, as Python
`str.split(sep)` does. -/
def splitOnChar (sep : Char) : List Char → List (List Char)
  | [] => [[]]
  | c :: r =>
    let rest := splitOnChar sep r
    if c = sep then [] :: rest else (c :: rest.headD []) :: rest.tail

/-- Query component of `urllib.parse.urlparse`: the fragment is cut at
the first hash mark, then the query is everything after the first
question mark of what is left. -/
def afterFirstQm : List Char → List Char
  | [] => []
  | '?' :: r => r
  | _ :: r => afterFirstQm r

/-- See `afterFirstQm`; this is `urlparse(url).query`. -/
def urlQueryChars (l : List Char) : List Char :=
  afterFirstQm (l.takeWhile (fun c => c ≠ '#'))

/-- One step of `urllib.parse.parse_qs` followed by
`.get('file', [''])[0]`: the first `name=value` field whose unquoted
name is `file` and whose raw value is non-empty contributes its
unquoted value; otherwise the result is empty. -/
def fpAux : List (List Char) → List Char
  | [] => []
  | piece :: rest =>
    if piece.contains '=' then
      let name := piece.takeWhile (fun c => c ≠ '=')
      let value := (piece.dropWhile (fun c => c ≠ '=')).tail
      if unquoteChars name = "file".data ∧ value.isEmpty = false then unquoteChars value
      else fpAux rest
    else fpAux rest

/-- `parse_qs(query).get('file', [''])[0]` from the source. -/
def fileParamChars (q : List Char) : List Char :=
  fpAux (splitOnChar '&' q)

/-- `os.path.basename` on POSIX: everything after the last slash. -/
def basenameChars (l : List Char) : List Char :=
  (l.reverse.takeWhile (fun c => c ≠ '/')).reverse

/-- The root part of `os.path.splitext` for a path without slashes:
split at the last dot unless every character before it is a dot. -/
def stemChars (l : List Char) : List Char :=
  let r := l.reverse
  if r.contains '.' then
    let before := (r.dropWhile (fun c => c ≠ '.')).tail
    if before.any (fun c => c ≠ '.') then before.reverse else l
  else l

/-- `.replace('-', ' ').replace('_', ' ')` from the source. -/
def dashUnderscoreToSpace (l : List Char) : List Char :=
  l.map (fun c => if c = '-' ∨ c = '_' then ' ' else c)

/-- Python `str.title()` (ASCII range): the first letter of each
maximal run of letters is uppercased, the rest lowercased. -/
def pyTitleChars (prevCased : Bool) : List Char → List Char
  | [] => []
  | c :: r =>
    if c.isAlpha then
      (if prevCased then c.toLower else c.toUpper) :: pyTitleChars true r
    else c :: pyTitleChars false r

/-- The whole title-beautifying pipeline of the source:
`os.path.splitext(f)[0].replace('-', ' ').replace('_', ' ').title()`. -/
def beautifyTitleChars (l : List Char) : List Char :=
  pyTitleChars false (dashUnderscoreToSpace (stemChars l))

/-- Length of the regex prefix `https?://` when it matches at the head
of the list (greedy, so the `https` form is preferred). -/
def schemeLen (l : List Char) : Option Nat :=
  if "https://".data.isPrefixOf l then some 8
  else if "http://".data.isPrefixOf l then some 7
  else none

/-- Leftmost match of the regex `https?://[^\s\)]+`, as used to find a
bare URL in a paragraph. -/
def findUrl (l : List Char) : Option (List Char) :=
  match l with
  | [] => none
  | c :: r =>
    match schemeLen (c :: r) with
    | some n =>
      if (((c :: r).drop n).takeWhile (fun ch => !(pyIsSpace ch) && ch ≠ ')')).isEmpty then
        findUrl r
      else
        some ((c :: r).take n ++ ((c :: r).drop n).takeWhile (fun ch => !(pyIsSpace ch) && ch ≠ ')'))
    | none => findUrl r

theorem takeWhileLenLe (p : Char → Bool) (l : List Char) :
    (l.takeWhile p).length ≤ l.length := by
  induction l with
  | nil => simp
  | cons a t ih =>
    simp only [List.takeWhile]
    cases p a
    · simp
    · simpa using Nat.succ_le_succ ih

/-- `re.sub(r'https?://[^\s]+', '', title)`: delete every match of the
bare-URL pattern (here with no closing-parenthesis exclusion). -/
def removeUrls (l : List Char) : List Char :=
  match l with
  | [] => []
  | c :: r =>
    match schemeLen (c :: r) with
    | some n =>
      if ((((c :: r).drop n).takeWhile (fun ch => !(pyIsSpace ch))).length = 0) then
        c :: removeUrls r
      else
        removeUrls (((c :: r).drop n).drop
          ((((c :: r).drop n).takeWhile (fun ch => !(pyIsSpace ch))).length))
    | none => c :: removeUrls r
termination_by l.length
decreasing_by
  all_goals simp only [List.length_drop, List.length_cons]
  all_goals omega

/-- Drop at most two leading asterisks, as the greedy regex piece
`\*{0,2}` does. -/
def dropStars2 (l : List Char) : List Char :=
  match l with
  | c :: r =>
    if c = '*' then
      match r with
      | c2 :: r2 => if c2 = '*' then r2 else r
      | [] => r
    else l
  | [] => l

/-- `re.sub(r'^\*{0,2}\d+\.\s*\*{0,2}\s*', '', title)`: strip a leading
ordinal marker such as `1. ` or `**2.** `.  When the anchored pattern
does not match, the input is returned unchanged. -/
def stripOrd (l : List Char) : List Char :=
  let r1 := dropStars2 l
  let ds := r1.takeWhile Char.isDigit
  if ds.isEmpty then l
  else
    match r1.drop ds.length with
    | '.' :: r2 => (dropStars2 (r2.dropWhile pyIsSpace)).dropWhile pyIsSpace
    | _ => l

/-- `re.sub(r'\s*-\s*$', '', title)`: remove one trailing dash together
with the whitespace around it. -/
def dashStrip (l : List Char) : List Char :=
  let r1 := l.reverse.dropWhile pyIsSpace
  match r1 with
  | '-' :: r2 => (r2.dropWhile pyIsSpace).reverse
  | _ => l

/-- Leftmost match of `\[([^\]]+)\]\(([^)]+)\)` starting at the given
suffix, which must directly follow an opening bracket; returns the two
capture groups. -/
def mdAt (rest : List Char) : Option (List Char × List Char) :=
  let t := rest.takeWhile (fun c => c ≠ ']')
  if t.isEmpty then none
  else
    match rest.drop t.length with
    | ']' :: '(' :: r2 =>
      let u := r2.takeWhile (fun c => c ≠ ')')
      if u.isEmpty then none
      else
        match r2.drop u.length with
        | ')' :: _ => some (t, u)
        | _ => none
    | _ => none

/-- `re.search(r'\[([^\]]+)\]\(([^)]+)\)', para)`: leftmost markdown
link of a paragraph, returned as (link text, link target). -/
def findMd : List Char → Option (List Char × List Char)
  | [] => none
  | c :: r =>
    if c = '[' then
      match mdAt r with
      | some p => some p
      | none => findMd r
    else findMd r

/-- `re.split(r'\n\n+', text)`: accumulate the current piece (reversed)
and a count of pending newlines; a run of two or more newlines is a
separator, a single newline stays inside the piece. -/
def paraSplitAux (acc : List Char) (nl : Nat) : List Char → List (List Char)
  | [] =>
    if 2 ≤ nl then [acc.reverse, []] else [acc.reverse ++ List.replicate nl '\n']
  | c :: r =>
    if c = '\n' then paraSplitAux acc (nl + 1) r
    else if 2 ≤ nl then acc.reverse :: paraSplitAux [c] 0 r
    else paraSplitAux (c :: (List.replicate nl '\n' ++ acc)) 0 r

/-- See `paraSplitAux`. -/
def paraSplit (l : List Char) : List (List Char) :=
  paraSplitAux [] 0 l

/-- Python `str.split('\n')`. -/
def splitNlAux (acc : List Char) : List Char → List (List Char)
  | [] => [acc.reverse]
  | c :: r => if c = '\n' then acc.reverse :: splitNlAux [] r else splitNlAux (c :: acc) r

/-- See `splitNlAux`. -/
def splitNl (l : List Char) : List (List Char) :=
  splitNlAux [] l

/-- Normalized citation record as built by `chat_with_agent`: the four
dictionary keys used by `format_as_search_results`.  A `none` field
models an absent key, so the `dict.get` defaults of the source stay
observable. -/
structure CitDict where
  title? : Option String
  url? : Option String
  snippet? : Option String
  source? : Option String
deriving DecidableEq

/-- Presentation-level search result (the `SearchResult` pydantic
model). -/
structure SearchRes where
  title : String
  url : String
  snippet : String
deriving DecidableEq

/-- `map_document_id_to_url` from the source: pass URLs through, then
try the mapping table with the identifier verbatim, with `.pdf`
appended, with `.docx` appended, and finally fall back to the
identifier itself. -/
def map_document_id_to_url (tbl : List (String × String)) (docId : String) : String :=
  if "http".data.isPrefixOf docId.data then docId
  else
    match List.lookup docId tbl with
    | some u => u
    | none =>
      match List.lookup (docId ++ ".pdf") tbl with
      | some u => u
      | none =>
        match List.lookup (docId ++ ".docx") tbl with
        | some u => u
        | none => docId

/-- The resolved URL of one citation inside the citation loop of
`format_as_search_results`: only knowledge-base (`AI Search`) citations
go through the URL mapping, and the `#` sentinel is left alone. -/
def citeMappedUrl (tbl : List (String × String)) (c : CitDict) : String :=
  let url := c.url?.getD "#"
  let src := c.source?.getD "Unknown"
  if src = "AI Search" then
    (if url ≠ "#" then map_document_id_to_url tbl url else "#")
  else url

/-- The display title of one citation inside the citation loop of
`format_as_search_results`: when the raw title still looks like a
generic `doc_` identifier and the URL mapping changed the URL, derive a
title from a `file` query parameter, or from the path of a `.pdf` or
`.docx` URL. -/
def citeTitle (tbl : List (String × String)) (i : Nat) (c : CitDict) : String :=
  let title0 := c.title?.getD ("Result " ++ toString (i + 1))
  let url := c.url?.getD "#"
  let mu := citeMappedUrl tbl c
  if "doc_".data.isPrefixOf title0.data = true ∧ mu ≠ url then
    let q := urlQueryChars mu.data
    if hasSubstrChars q "file=".data = true then
      let fp := fileParamChars q
      if fp.isEmpty = false then
        let fn := basenameChars fp
        if fn.isEmpty = false then String.mk (beautifyTitleChars fn) else title0
      else title0
    else if ".pdf".data.isSuffixOf mu.data = true ∨ ".docx".data.isSuffixOf mu.data = true then
      String.mk (beautifyTitleChars (basenameChars mu.data))
    else title0
  else title0

/-- One iteration of the citation loop of `format_as_search_results`
(index `i`, citation `c`): emit a search result exactly when the
resolved URL is neither empty nor the `#` sentinel; an empty citation
snippet falls back to the first 250 characters of the response text. -/
def processCitation (resp : String) (tbl : List (String × String)) (i : Nat) (c : CitDict) :
    Option SearchRes :=
  let snip := c.snippet?.getD ""
  let mu := citeMappedUrl tbl c
  if mu ≠ "" ∧ mu ≠ "#" then
    some ⟨citeTitle tbl i c, mu, if snip ≠ "" then snip else String.mk (resp.data.take 250)⟩
  else none

/-- Title and URL chosen for one paragraph by the response-text parsing
branch of `format_as_search_results`: prefer a markdown link; otherwise
find a bare URL (sentinel `#` when there is none) and build the title
from the first line by stripping ordinal markers, URLs and a trailing
dash. -/
def paraBranchTitleUrl (p : List Char) : List Char × List Char :=
  match findMd p with
  | some (g1, g2) => (stripOrd (pyStripChars g1), pyStripChars g2)
  | none =>
    (pyStripChars (dashStrip (pyStripChars (removeUrls (stripOrd
        (pyStripChars ((splitNl p).headD [])))))),
     match findUrl p with
     | some u => u
     | none => "#".data)

/-- Paragraph snippet of the response-text parsing branch: everything
after the first line (stripped), or the whole paragraph when it is a
single line. -/
def paraSnippet (p : List Char) : List Char :=
  if p.contains '\n' then pyStripChars (List.intercalate ['\n'] ((splitNl p).tail)) else p

/-- One paragraph of the response-text parsing branch: skip blank
paragraphs, emit a result only when the title is non-empty and the URL
is not the `#` sentinel, capping the title at 200 and the snippet at
500 characters. -/
def paraToResult (p : List Char) : Option SearchRes :=
  if (pyStripChars p).isEmpty = true then none
  else
    let tu := paraBranchTitleUrl p
    if tu.1.isEmpty = false ∧ tu.2 ≠ "#".data then
      some ⟨String.mk (pyCap 200 tu.1), String.mk tu.2, String.mk (pyCap 500 (paraSnippet p))⟩
    else none

/-- The response-text parsing branch of `format_as_search_results`:
split the stripped response on blank lines and convert each paragraph. -/
def parseTextResults (resp : List Char) : List SearchRes :=
  (paraSplit (pyStripChars resp)).filterMap paraToResult

/-- Fixed title of the fallback placeholder result. -/
def fallbackTitleStr : String := "Search Results from VA Assistant"

/-- `format_as_search_results` from the source: convert at most the
first 20 citations; if that yields nothing and the mode is search with
a non-empty response, parse the response text; if there is still
nothing, emit the single placeholder result with URL sentinel `#` and
the raw response text as snippet. -/
def format_as_search_results (agentResponse : String) (cits : List CitDict)
    (isSearchMode : Bool) (tbl : List (String × String)) : List SearchRes :=
  let results :=
    if cits.isEmpty then []
    else ((cits.take 20).enum).filterMap (fun ic => processCitation agentResponse tbl ic.1 ic.2)
  let results2 :=
    if results.isEmpty && !(agentResponse == "") && isSearchMode then
      parseTextResults agentResponse.data
    else results
  if results2.isEmpty then [⟨fallbackTitleStr, "#", agentResponse⟩] else results2

/-- Apostrophe character, kept out of string literals. -/
def apos : Char := Char.ofNat 39

/-- The third entry of the no-answer indicator list of
`chat_with_agent`. -/
def couldntFind : String := "couldn" ++ String.singleton apos ++ "t find"

/-- The `no_results_indicators` list of `chat_with_agent`, in source
order. -/
def noResultsIndicators : List String :=
  ["NO_RESULTS_FOUND", "no results", couldntFind, "no information", "not found", "no relevant"]

/-- `has_no_results` of `chat_with_agent`: case-insensitive substring
match of any indicator against the primary response text. -/
def hasNoResults (t : String) : Bool :=
  noResultsIndicators.any (fun ind => hasSubstrChars (toLowerChars t.data) (toLowerChars ind.data))

/-- The net `use_fallback` flag computed in conversational (chat) mode:
an indicator matched, or the primary produced no citations and its
stripped text is shorter than 200 characters. -/
def chatUseFallback (pText : String) (pCits : List CitDict) : Bool :=
  hasNoResults pText || (pCits.isEmpty && decide ((pyStripChars pText.data).length < 200))

/-- The guard `use_fallback and fallback_agent_id` that decides whether
the fallback agent run is started. -/
def invokesFallback (useFb fbConfigured : Bool) : Bool :=
  useFb && fbConfigured

/-- Output of the search-mode merge step of `chat_with_agent`. -/
structure MergedSearch where
  combined : String
  cits : Option (List CitDict)
  raw : String
deriving DecidableEq

/-- The search-mode merge step of `chat_with_agent`: each side is
included under its heading only when its text is non-empty, did not
fail (primary only) and does not contain the `NO_RESULTS_FOUND`
sentinel; when the combined text strips to nothing both outputs fall
back to the fallback text; citations are concatenated primary first
with the empty list normalized to `none`. -/
def searchModeMerge (pText : String) (runFailed : Bool) (pCits : List CitDict)
    (fText : String) (fCits : List CitDict) : MergedSearch :=
  let includeP := pText ≠ "" ∧ runFailed = false ∧
    hasSubstrChars pText.data "NO_RESULTS_FOUND".data = false
  let c1 := if includeP then "## Knowledge Base Results\n\n" ++ pText ++ "\n\n" else ""
  let r1 := if includeP then pText ++ "\n\n" else ""
  let includeF := fText ≠ "" ∧ hasSubstrChars fText.data "NO_RESULTS_FOUND".data = false
  let c2 := c1 ++ (if includeF then "## Web Search Results\n\n" ++ fText else "")
  let r2 := r1 ++ (if includeF then fText else "")
  let c3 := if (pyStripChars c2.data).isEmpty = true then fText else c2
  let r3 := if (pyStripChars c2.data).isEmpty = true then fText else r2
  let allCits := pCits ++ fCits
  ⟨c3, if allCits.isEmpty then none else some allCits, pyStripStr r3⟩

/-- The conversational-mode merge step of `chat_with_agent`: prefer the
fallback text when it is non-empty and either the primary text is empty
or the fallback was selected; citations of the chosen side, with the
empty list normalized to `none`. -/
def chatModeMerge (pText fText : String) (useFb : Bool) (pCits fCits : List CitDict) :
    String × Option (List CitDict) :=
  if fText ≠ "" ∧ (pText = "" ∨ useFb = true) then
    (fText, if fCits.isEmpty then none else some fCits)
  else
    (pText, if pCits.isEmpty then none else some pCits)

/-- One component of a tuple returned by `chat_with_agent`: a string, a
citation list or `None`, or a bare `None`. -/
inductive OrchVal where
  | vStr : String → OrchVal
  | vCits : Option (List CitDict) → OrchVal
  | vNone : OrchVal
deriving DecidableEq

/-- The four-element tuple returned by `chat_with_agent` on the normal
conversational path: text, thread id, citations-or-none, and a `None`
in place of the search-mode raw text. -/
def chatReturnSuccess (text tid : String) (cits : List CitDict) : List OrchVal :=
  [OrchVal.vStr text, OrchVal.vStr tid,
   OrchVal.vCits (if cits.isEmpty then none else some cits), OrchVal.vNone]

/-- The tuple built by the early `return` of `chat_with_agent` taken in
conversational mode when the fallback agent run reports failure: it has
only three elements. -/
def chatReturnOnFallbackFailure (pText tid : String) (pCits : List CitDict) : List OrchVal :=
  [OrchVal.vStr pText, OrchVal.vStr tid,
   OrchVal.vCits (if pCits.isEmpty then none else some pCits)]

/-- The tuple unpacking `a, b, c, d = await chat_with_agent(...)`
performed by the `chat` request handler; a tuple of any other length
raises. -/
def unpack4 (l : List OrchVal) : Except String (OrchVal × OrchVal × OrchVal × OrchVal) :=
  match l with
  | [a, b, c, d] => Except.ok (a, b, c, d)
  | _ => Except.error "cannot unpack tuple into 4 values"

/-- Outcome of the `chat` request handler seen by the client. -/
inductive EndpointResult where
  | success : String → String → Option (List CitDict) → EndpointResult
  | httpError : Nat → EndpointResult
deriving DecidableEq

/-- The `chat` request handler around the orchestrator result: unpack
four values and answer with them; any raised error is caught by the
generic handler and converted to an HTTP 500 response. -/
def chatEndpointOutcome (ret : List OrchVal) : EndpointResult :=
  match unpack4 ret with
  | Except.ok (OrchVal.vStr text, OrchVal.vStr tid, OrchVal.vCits c, _) =>
      EndpointResult.success text tid c
  | _ => EndpointResult.httpError 500

/-- `isBareUrlOnly l` holds when `l` is exactly one match of the
bare-URL regex with no surrounding text: a scheme prefix followed by a
non-empty run of non-whitespace characters. -/
def isBareUrlOnly (l : List Char) : Bool :=
  match schemeLen l with
  | some n => !(l.drop n).isEmpty && (l.drop n).all (fun c => !(pyIsSpace c))
  | none => false

/-- C1: for every response text, citation list and mode flag,
`format_as_search_results` returns a non-empty list; and on
citations = [], responseText = "" and isSearchMode = true it returns
exactly one fallback result with the fixed placeholder title, the
sentinel url `#`, and the raw (here empty) response text as snippet. -/
theorem iteIsEmptyNeNil {α : Type} (X : List α) (fb : α) :
    (if X.isEmpty then [fb] else X) ≠ [] := by
  cases X <;> simp

theorem formatter_never_empty_and_exact_fallback :
    (∀ (resp : String) (cits : List CitDict) (m : Bool) (tbl : List (String × String)),
      format_as_search_results resp cits m tbl ≠ [])
    ∧ ∀ tbl : List (String × String),
        format_as_search_results "" [] true tbl = [⟨fallbackTitleStr, "#", ""⟩] := by
  constructor
  · intro resp cits m tbl
    exact iteIsEmptyNeNil _ _
  · intro tbl
    rfl

/-- C4 (divergence witness): the early return taken in conversational
mode when the fallback agent run fails yields a three-element tuple,
the request handler expects four, and the resulting unpacking error is
converted by the generic exception handler into an HTTP 500 answer, so
the request does not succeed with the primary text; on the normal
conversational path the same handler succeeds. -/
theorem chat_fallback_failure_return_arity_bug :
    ∀ (pText tid : String) (pCits : List CitDict),
      (chatReturnOnFallbackFailure pText tid pCits).length = 3
      ∧ chatEndpointOutcome (chatReturnOnFallbackFailure pText tid pCits)
          = EndpointResult.httpError 500
      ∧ ∀ (t : String) (c : List CitDict),
          chatEndpointOutcome (chatReturnSuccess t tid c)
            = EndpointResult.success t tid (if c.isEmpty then none else some c) := by
  intro pText tid pCits
  exact ⟨rfl, rfl, fun t c => rfl⟩

/-- C5 (counterexample): an identifier that itself begins with `http`
but is present in the mapping table only under its `.pdf`-suffixed key
is returned unchanged instead of being resolved to the mapped URL. -/
theorem url_resolver_scheme_prefix_counterexample :
    List.lookup "httpdoc" [("httpdoc.pdf", "u")] = none
    ∧ List.lookup ("httpdoc" ++ ".pdf") [("httpdoc.pdf", "u")] = some "u"
    ∧ map_document_id_to_url [("httpdoc.pdf", "u")] "httpdoc" = "httpdoc"
    ∧ map_document_id_to_url [("httpdoc.pdf", "u")] "httpdoc" ≠ "u" := by
  refine ⟨by decide, by decide, rfl, by decide⟩

/-- C5 (amended): the resolver tries, in order, the scheme-prefix
pass-through, the verbatim key, the `.pdf` key and the `.docx` key and
otherwise returns the identifier unchanged; hence an identifier
beginning with the scheme prefix is returned unchanged, an identifier
absent under all three key forms is returned unchanged, and an
identifier that does not begin with the scheme prefix and is mapped
only under its `.pdf` key resolves to that mapped URL. -/
theorem url_resolver_amended :
    ∀ (tbl : List (String × String)) (id1 id2 id3 u : String),
      ("http".data.isPrefixOf id3.data = true → map_document_id_to_url tbl id3 = id3)
      ∧ (List.lookup id1 tbl = none → List.lookup (id1 ++ ".pdf") tbl = none →
          List.lookup (id1 ++ ".docx") tbl = none → map_document_id_to_url tbl id1 = id1)
      ∧ ("http".data.isPrefixOf id2.data = false → List.lookup id2 tbl = none →
          List.lookup (id2 ++ ".pdf") tbl = some u → map_document_id_to_url tbl id2 = u) := by
  intro tbl id1 id2 id3 u
  refine ⟨fun h3 => ?_, fun ha hb hc => ?_, fun h2a h2b h2c => ?_⟩
  · simp [map_document_id_to_url, h3]
  · by_cases hp : "http".data.isPrefixOf id1.data = true
    · simp [map_document_id_to_url, hp]
    · simp only [map_document_id_to_url]
      rw [if_neg (by simpa using hp), ha, hb, hc]
  · simp only [map_document_id_to_url]
    rw [if_neg (by simp [h2a]), h2b, h2c]

/-- Witness for `url_resolver_amended` at a concrete table. -/
theorem url_resolver_amended_witness :
    map_document_id_to_url [("a.pdf", "u")] "https://z" = "https://z"
    ∧ map_document_id_to_url [("a.pdf", "u")] "b" = "b"
    ∧ map_document_id_to_url [("a.pdf", "u")] "a" = "u" :=
  ⟨(url_resolver_amended [("a.pdf", "u")] "b" "a" "https://z" "u").1 (by decide),
   (url_resolver_amended [("a.pdf", "u")] "b" "a" "https://z" "u").2.1
     (by decide) (by decide) (by decide),
   (url_resolver_amended [("a.pdf", "u")] "b" "a" "https://z" "u").2.2
     (by decide) (by decide) (by decide)⟩

/-- C6: a knowledge-base citation whose title and url are the generic
identifier `doc_1`, under a table mapping `doc_1.pdf` to a URL with a
`file` query parameter, is normalized to the mapped URL with the title
`Annual Report` derived from that parameter. -/
theorem doc_id_citation_title_and_url :
    ∀ (resp : String) (m : Bool),
      (format_as_search_results resp
          [⟨some "doc_1", some "doc_1", some "", some "AI Search"⟩] m
          [("doc_1.pdf", "https://x/y?file=Annual-Report.pdf")]).map
        (fun r => (r.title, r.url))
        = [("Annual Report", "https://x/y?file=Annual-Report.pdf")] := by
  intro resp m
  rfl

theorem dropWhileAppendSingleton (p : Char → Bool) (xs : List Char) (c : Char)
    (hc : p c = false) : (xs ++ [c]).dropWhile p ≠ [] := by
  induction xs with
  | nil => simp [List.dropWhile, hc]
  | cons a t ih =>
    simp only [List.cons_append, List.dropWhile]
    cases p a <;> simp_all

theorem pyStripHeadNotSpace (c : Char) (l : List Char) (hc : pyIsSpace c = false) :
    (pyStripChars (c :: l)).isEmpty = false := by
  simp only [pyStripChars, List.dropWhile, hc]
  have h1 : ((c :: l).reverse.dropWhile pyIsSpace) ≠ [] := by
    simpa using dropWhileAppendSingleton pyIsSpace l.reverse c hc
  simpa [List.isEmpty_iff] using h1

theorem stripHashHead (l : List Char) : (pyStripChars ('#' :: l)).isEmpty = false :=
  pyStripHeadNotSpace '#' l (by decide)

/-- C2: in search mode with a successful primary run and both texts
non-empty and free of the `NO_RESULTS_FOUND` sentinel, the merged
response is exactly the knowledge-base heading section followed by the
web-search heading section, and the citation output is the primary
citations followed by the fallback citations without deduplication, so
its length is the sum of the two citation counts. -/
theorem search_mode_merge_headings_and_citation_concat
    (pText fText : String) (pCits fCits : List CitDict)
    (h1 : pText ≠ "") (h2 : fText ≠ "")
    (h3 : hasSubstrChars pText.data "NO_RESULTS_FOUND".data = false)
    (h4 : hasSubstrChars fText.data "NO_RESULTS_FOUND".data = false) :
    (searchModeMerge pText false pCits fText fCits).combined
      = ("## Knowledge Base Results\n\n" ++ pText ++ "\n\n")
        ++ ("## Web Search Results\n\n" ++ fText)
    ∧ (searchModeMerge pText false pCits fText fCits).cits.getD [] = pCits ++ fCits
    ∧ ((searchModeMerge pText false pCits fText fCits).cits.getD []).length
        = pCits.length + fCits.length := by
  refine ⟨?_, ?_, ?_⟩
  · simp [searchModeMerge, h1, h2, h3, h4, stripHashHead]
  · simp only [searchModeMerge, h1, h2, h3, h4]
    by_cases hc : (pCits ++ fCits).isEmpty
    · rcases List.append_eq_nil.mp (List.isEmpty_iff.mp hc) with ⟨hp, hf⟩
      simp [hc, hp, hf]
    · simp [hc]
  · simp only [searchModeMerge, h1, h2, h3, h4]
    by_cases hc : (pCits ++ fCits).isEmpty
    · rcases List.append_eq_nil.mp (List.isEmpty_iff.mp hc) with ⟨hp, hf⟩
      simp [hc, hp, hf]
    · simp [hc]

/-- A sample knowledge-base citation used by witnesses. -/
def citA : CitDict := ⟨some "A", some "https://a", some "sa", some "AI Search"⟩

/-- A sample web-search citation used by witnesses. -/
def citB : CitDict := ⟨some "W", some "https://w", some "sw", some "Bing Search"⟩

/-- Witness for `search_mode_merge_headings_and_citation_concat` at
concrete texts and one citation per source. -/
theorem search_mode_merge_witness :
    (searchModeMerge "KB answer" false [citA] "Web answer" [citB]).combined
      = ("## Knowledge Base Results\n\n" ++ "KB answer" ++ "\n\n")
        ++ ("## Web Search Results\n\n" ++ "Web answer")
    ∧ (searchModeMerge "KB answer" false [citA] "Web answer" [citB]).cits.getD []
        = [citA] ++ [citB]
    ∧ ((searchModeMerge "KB answer" false [citA] "Web answer" [citB]).cits.getD []).length
        = [citA].length + [citB].length :=
  search_mode_merge_headings_and_citation_concat "KB answer" "Web answer" [citA] [citB]
    (by decide) (by decide) (by decide) (by decide)

/-- C3: in conversational mode, whenever the primary text matches a
no-answer indicator (case-insensitively) or the primary produced no
citations and its stripped text is shorter than 200 characters, the
fallback flag is set and, with a fallback agent configured, the
fallback agent is invoked; when the fallback then succeeds with
non-empty text, the merge returns the fallback text together with the
fallback citations (an empty citation list being normalized to none);
and the text `NO_RESULTS_FOUND` does match an indicator. -/
theorem chat_mode_fallback_trigger_and_result
    (pText fText : String) (pCits fCits : List CitDict)
    (h : hasNoResults pText = true
        ∨ (pCits = [] ∧ (pyStripChars pText.data).length < 200)) :
    hasNoResults "NO_RESULTS_FOUND" = true
    ∧ chatUseFallback pText pCits = true
    ∧ invokesFallback (chatUseFallback pText pCits) true = true
    ∧ (fText ≠ "" →
        chatModeMerge pText fText (chatUseFallback pText pCits) pCits fCits
          = (fText, if fCits.isEmpty then none else some fCits)) := by
  have hcuf : chatUseFallback pText pCits = true := by
    rcases h with hl | ⟨he, hlt⟩
    · simp [chatUseFallback, hl]
    · simp [chatUseFallback, he, hlt]
  refine ⟨by decide, hcuf, by simp [invokesFallback, hcuf], fun hf => ?_⟩
  rw [chatModeMerge, if_pos ⟨hf, Or.inr hcuf⟩]

/-- Witness for `chat_mode_fallback_trigger_and_result` on the
indicator text itself. -/
theorem chat_mode_fallback_trigger_witness :
    chatUseFallback "NO_RESULTS_FOUND" [] = true
    ∧ chatModeMerge "NO_RESULTS_FOUND" "Paris." (chatUseFallback "NO_RESULTS_FOUND" []) [] [citB]
        = ("Paris.", if ([citB] : List CitDict).isEmpty then none else some [citB]) :=
  ⟨(chat_mode_fallback_trigger_and_result "NO_RESULTS_FOUND" "Paris." [] [citB]
      (Or.inl (by decide))).2.1,
   (chat_mode_fallback_trigger_and_result "NO_RESULTS_FOUND" "Paris." [] [citB]
      (Or.inl (by decide))).2.2.2 (by decide)⟩

/-- A 500-character primary text that contains the indicator phrase
`not found`. -/
def c9text : String :=
  String.mk ('n' :: 'o' :: 't' :: ' ' :: 'f' :: 'o' :: 'u' :: 'n' :: 'd' ::
    List.replicate 491 'a')

/-- C9 (counterexample): a conversational-mode primary response of
exactly 500 characters carrying 3 citations does invoke the fallback
agent when its text contains a no-answer indicator, because the
indicator check does not depend on length or citation count. -/
theorem long_response_with_indicator_counterexample :
    c9text.length = 500
    ∧ ([citA, citA, citA] : List CitDict).length = 3
    ∧ invokesFallback (chatUseFallback c9text [citA, citA, citA]) true = true := by
  refine ⟨by decide, by decide, by decide⟩

/-- C9 (amended): in conversational mode, a primary response of 500 or
more characters carrying 3 citations never invokes the fallback agent
provided its text matches no no-answer indicator. -/
theorem no_indicator_three_citations_no_fallback
    (text : String) (cits : List CitDict) (fb : Bool)
    (hind : hasNoResults text = false) (_hlen : 500 ≤ text.length)
    (hcits : cits.length = 3) :
    invokesFallback (chatUseFallback text cits) fb = false := by
  have hne : cits.isEmpty = false := by
    cases cits with
    | nil => simp at hcits
    | cons a t => simp
  simp [invokesFallback, chatUseFallback, hind, hne]

/-- Witness for `no_indicator_three_citations_no_fallback` on 500
letters `a`. -/
theorem no_indicator_three_citations_witness :
    invokesFallback (chatUseFallback (String.mk (List.replicate 500 'a')) [citA, citA, citA])
      true = false :=
  no_indicator_three_citations_no_fallback (String.mk (List.replicate 500 'a'))
    [citA, citA, citA] true (by decide) (by decide) (by decide)

/-- C7: the formatter output is unchanged when the citation list is cut
to its first 20 entries (the loop converts at most the first 20, in
encounter order); every search result emitted by the citation loop has
a resolved URL that is neither empty nor the `#` sentinel; and when the
citation snippet is empty or absent the emitted snippet is the first
250 characters of the response text. -/
theorem citation_cap_url_guard_snippet_fallback :
    ∀ (resp : String) (cits : List CitDict) (m : Bool) (tbl : List (String × String)),
      format_as_search_results resp cits m tbl
        = format_as_search_results resp (cits.take 20) m tbl
      ∧ (∀ (i : Nat) (c : CitDict) (r : SearchRes),
          processCitation resp tbl i c = some r →
            (r.url ≠ "" ∧ r.url ≠ "#")
            ∧ (c.snippet?.getD "" = "" → r.snippet = String.mk (resp.data.take 250))) := by
  intro resp cits m tbl
  constructor
  · cases cits with
    | nil => rfl
    | cons a l =>
      have e1 : ((a :: l).take 20).take 20 = (a :: l).take 20 := by
        simp [List.take_take]
      have e2 : ((a :: l).take 20).isEmpty = (a :: l).isEmpty := rfl
      simp only [format_as_search_results, e1, e2]
  · intro i c r h
    simp only [processCitation] at h
    split at h
    · rename_i hguard
      injection h with h2
      subst h2
      refine ⟨⟨hguard.1, hguard.2⟩, fun hsn => ?_⟩
      simp [hsn]
    · exact absurd h (by simp)

/-- Witness for `citation_cap_url_guard_snippet_fallback` at one
web-search citation with an empty snippet. -/
theorem citation_cap_witness :
    format_as_search_results "Resp" [⟨some "T", some "https://w", some "", some "Bing Search"⟩]
        true []
      = format_as_search_results "Resp"
          ([⟨some "T", some "https://w", some "", some "Bing Search"⟩].take 20) true []
    ∧ ((⟨"T", "https://w", "Resp"⟩ : SearchRes).url ≠ ""
        ∧ (⟨"T", "https://w", "Resp"⟩ : SearchRes).url ≠ "#")
    ∧ (⟨"T", "https://w", "Resp"⟩ : SearchRes).snippet = String.mk ("Resp".data.take 250) :=
  ⟨(citation_cap_url_guard_snippet_fallback "Resp"
      [⟨some "T", some "https://w", some "", some "Bing Search"⟩] true []).1,
   ((citation_cap_url_guard_snippet_fallback "Resp"
      [⟨some "T", some "https://w", some "", some "Bing Search"⟩] true []).2 0
      ⟨some "T", some "https://w", some "", some "Bing Search"⟩
      ⟨"T", "https://w", "Resp"⟩ (by decide)).1,
   ((citation_cap_url_guard_snippet_fallback "Resp"
      [⟨some "T", some "https://w", some "", some "Bing Search"⟩] true []).2 0
      ⟨some "T", some "https://w", some "", some "Bing Search"⟩
      ⟨"T", "https://w", "Resp"⟩ (by decide)).2 (by decide)⟩

/-- A citation whose title has 201 characters and whose snippet has 501
characters. -/
def c8cit : CitDict :=
  ⟨some (String.mk (List.replicate 201 'a')), some "https://u",
   some (String.mk (List.replicate 501 'b')), some "Bing Search"⟩

/-- C8 (counterexample): a citation-derived search result keeps the
citation title and snippet untruncated, so the claimed bounds of 200
title characters and 500 snippet characters fail. -/
theorem result_length_bounds_counterexample :
    ¬ (∀ r ∈ format_as_search_results "" [c8cit] true [],
        r.title.length ≤ 200 ∧ r.snippet.length ≤ 500) := by
  decide

theorem pyCapLenLe (n : Nat) (l : List Char) : (pyCap n l).length ≤ n ∨ pyCap n l = l := by
  by_cases h : n < l.length
  · left
    simp [pyCap, h]
  · right
    simp [pyCap, h]

theorem pyCapLen (n : Nat) (l : List Char) : (pyCap n l).length ≤ n := by
  by_cases h : n < l.length
  · simp [pyCap, h]
  · simp only [pyCap, if_neg h]
    omega

/-- C8 (amended): every search result produced by the response-text
parsing path has a title of at most 200 characters and a snippet of at
most 500 characters (these two slices are the only truncations the
formatter performs; citation-derived results and the fallback
placeholder are not truncated). -/
theorem parsed_result_length_bounds :
    ∀ (p : List Char) (r : SearchRes), paraToResult p = some r →
      r.title.length ≤ 200 ∧ r.snippet.length ≤ 500 := by
  intro p r h
  simp only [paraToResult] at h
  split at h
  · exact absurd h (by simp)
  · split at h
    · injection h with h2
      subst h2
      exact ⟨pyCapLen 200 _, pyCapLen 500 _⟩
    · exact absurd h (by simp)

/-- Witness for `parsed_result_length_bounds` on the markdown-link
paragraph of the specification example. -/
theorem parsed_result_length_bounds_witness :
    (⟨"Benefits Guide", "https://x/benefits", "Details here"⟩ : SearchRes).title.length ≤ 200
    ∧ (⟨"Benefits Guide", "https://x/benefits", "Details here"⟩ : SearchRes).snippet.length
        ≤ 500 :=
  parsed_result_length_bounds "1. [Benefits Guide](https://x/benefits)\nDetails here".data
    ⟨"Benefits Guide", "https://x/benefits", "Details here"⟩ (by decide)

theorem prefixHead (l : List Char) (c : Char) (t : List Char)
    (hpre : (c :: t).isPrefixOf l = true) : ∃ r, l = c :: r := by
  cases l with
  | nil => simp [List.isPrefixOf] at hpre
  | cons b r =>
    simp only [List.isPrefixOf, Bool.and_eq_true, beq_iff_eq] at hpre
    exact ⟨r, by rw [hpre.1]⟩

theorem schemeLenHeadH (l : List Char) (n : Nat) (h : schemeLen l = some n) :
    ∃ t, l = 'h' :: t := by
  have hpre : "https://".data.isPrefixOf l = true ∨ "http://".data.isPrefixOf l = true := by
    unfold schemeLen at h
    split at h
    · exact Or.inl (by assumption)
    · split at h
      · exact Or.inr (by assumption)
      · simp at h
  have h8 : "https://".data = 'h' :: "ttps://".data := rfl
  have h7 : "http://".data = 'h' :: "ttp://".data := rfl
  rcases hpre with hp | hp
  · exact prefixHead l 'h' _ (h8 ▸ hp)
  · exact prefixHead l 'h' _ (h7 ▸ hp)

theorem stripOrdHttp (t : List Char) : stripOrd ('h' :: t) = 'h' :: t := rfl

theorem takeWhileAll (p : Char → Bool) (l : List Char) (h : l.all p = true) :
    l.takeWhile p = l := by
  induction l with
  | nil => rfl
  | cons a r ih =>
    simp only [List.all_cons, Bool.and_eq_true] at h
    simp [List.takeWhile_cons, h.1, ih h.2]

theorem removeUrlsBare (l : List Char) (h : isBareUrlOnly l = true) : removeUrls l = [] := by
  unfold isBareUrlOnly at h
  cases hs : schemeLen l with
  | none => rw [hs] at h; simp at h
  | some n =>
    rw [hs] at h
    simp only [Bool.and_eq_true] at h
    obtain ⟨hne, hall⟩ := h
    cases l with
    | nil => simp [schemeLen, List.isPrefixOf] at hs
    | cons c r =>
      have htw : ((c :: r).drop n).takeWhile (fun ch => !(pyIsSpace ch)) = (c :: r).drop n :=
        takeWhileAll _ _ hall
      have hlen : (((c :: r).drop n).takeWhile (fun ch => !(pyIsSpace ch))).length
          = ((c :: r).drop n).length := by rw [htw]
      have hgz : ((c :: r).drop n).length ≠ 0 := by
        intro h0
        rw [List.length_eq_zero.mp h0] at hne
        simp at hne
      simp only [removeUrls, hs, hlen]
      rw [if_neg hgz, List.drop_length]
      simp [removeUrls]

theorem paraNoneOfBare (p : List Char)
    (hmd : findMd p = none)
    (hb : isBareUrlOnly (pyStripChars ((splitNl p).headD [])) = true) :
    paraToResult p = none := by
  by_cases hstrip : (pyStripChars p).isEmpty = true
  · simp [paraToResult, hstrip]
  · obtain ⟨n, hn⟩ : ∃ n, schemeLen (pyStripChars ((splitNl p).headD [])) = some n := by
      unfold isBareUrlOnly at hb
      cases hs : schemeLen (pyStripChars ((splitNl p).headD [])) with
      | none => rw [hs] at hb; simp at hb
      | some n => exact ⟨n, rfl⟩
    obtain ⟨t, ht⟩ := schemeLenHeadH _ n hn
    have htitle : (paraBranchTitleUrl p).1 = [] := by
      simp only [paraBranchTitleUrl, hmd]
      rw [ht, stripOrdHttp, removeUrlsBare _ (ht ▸ hb)]
      rfl
    simp [paraToResult, hstrip, htitle]

/-- C10: a paragraph with no markdown link whose first line is exactly
one bare URL yields no parsed result, because stripping the URL from
the first line leaves an empty title; hence a response made up entirely
of such paragraphs (or blank ones) produces only the single fallback
result. -/
theorem bare_url_paragraphs_yield_fallback (resp : String) (tbl : List (String × String))
    (h : ∀ p ∈ paraSplit (pyStripChars resp.data),
        (pyStripChars p).isEmpty = true
        ∨ (findMd p = none ∧ isBareUrlOnly (pyStripChars ((splitNl p).headD [])) = true)) :
    format_as_search_results resp [] true tbl = [⟨fallbackTitleStr, "#", resp⟩] := by
  have hparse : parseTextResults resp.data = [] := by
    unfold parseTextResults
    rw [List.filterMap_eq_nil_iff]
    intro p hp
    rcases h p hp with hempty | ⟨hmd, hbare⟩
    · simp [paraToResult, hempty]
    · exact paraNoneOfBare p hmd hbare
  by_cases hresp : resp = ""
  · subst hresp; rfl
  · simp [format_as_search_results, hresp, hparse]

/-- Witness for `bare_url_paragraphs_yield_fallback` on a response of
two bare-URL paragraphs. -/
theorem bare_url_paragraphs_witness :
    format_as_search_results "https://example.com/a\n\nhttps://example.com/b" [] true []
      = [⟨fallbackTitleStr, "#", "https://example.com/a\n\nhttps://example.com/b"⟩] :=
  bare_url_paragraphs_yield_fallback "https://example.com/a\n\nhttps://example.com/b" []
    (by decide)
